import Mathlib

/-!
# tudatpy kernel bindings: transfer trajectories and interpolators

Verification development for two pybind11 exposure units of tudatpy,

* `src/tudatpy/kernel/expose_trajectory_design/expose_transfer_trajectory.cpp`
* `src/tudatpy/kernel/expose_math/expose_interpolators.cpp`

The exposure units are embedded as the tables they register (Python name,
bound C++ entity, argument list), in source order.  The C++ classes behind
the tables (`tms::TransferTrajectory`, `ti::OneDimensionalInterpolator`, the
enumerations of `tudat::interpolators`) are declared in the tudat library
headers, which are not part of the sources; what is needed of them is either
taken as a parameter or modelled from the specification, and marked so.
-/

namespace Tudatpy

/-! ## pybind11 registration records -/

/-- Registration call used on a `py::class_`: `def_property_readonly` or `def`. -/
inductive DefKind
  | def_property_readonly
  | def_
  deriving DecidableEq, Repr

/-- One registration on a `py::class_`: how it is registered, its Python
name, the bound member and the names of its `py::arg`s. -/
structure ClassDef (μ : Type) where
  kind : DefKind
  pyName : String
  member : μ
  args : List String
  deriving DecidableEq, Repr

/-- One `.value(name, enumerator)` registration on a `py::enum_`. -/
structure EnumValue (ε : Type) where
  pyName : String
  enumerator : ε
  deriving DecidableEq, Repr

/-- Value bound to a Python name in a `py::enum_` table (first registration). -/
def EnumValue.lookup {ε : Type} (table : List (EnumValue ε)) (name : String) : Option ε :=
  (table.find? (fun v => v.pyName == name)).map (fun v => v.enumerator)

/-- Member bound to a Python name in a `py::class_` table (first registration). -/
def ClassDef.lookup {μ : Type} (table : List (ClassDef μ)) (name : String) : Option μ :=
  (table.find? (fun d => d.pyName == name)).map (fun d => d.member)

/-! ## expose_transfer_trajectory.cpp, lines 91-121 -/

/-- Member functions of `tms::TransferTrajectory` referred to by the binding. -/
inductive TransferTrajectoryMember
  | getTotalDeltaV
  | getTotalTimeOfFlight
  | evaluateTrajectory
  | getNodeDeltaV
  | getLegDeltaV
  | getStatesAlongTrajectory
  | getDeltaVPerNode
  | getDeltaVPerLeg
  | getNumberOfNodes
  | getNumberOfLegs
  deriving DecidableEq, Repr

/-- The `py::class_<tms::TransferTrajectory>` registrations, in source order. -/
def transferTrajectoryClass : List (ClassDef TransferTrajectoryMember) :=
  [ ⟨.def_property_readonly, "delta_v", .getTotalDeltaV, []⟩,
    ⟨.def_property_readonly, "time_of_flight", .getTotalTimeOfFlight, []⟩,
    ⟨.def_, "evaluate", .evaluateTrajectory,
      ["node_times", "leg_parameters", "node_parameters"]⟩,
    ⟨.def_, "single_node_delta_v", .getNodeDeltaV, ["node_index"]⟩,
    ⟨.def_, "single_leg_delta_v", .getLegDeltaV, ["leg_index"]⟩,
    ⟨.def_, "states_along_trajectory", .getStatesAlongTrajectory,
      ["number_of_data_points_per_leg"]⟩,
    ⟨.def_property_readonly, "delta_v_per_node", .getDeltaVPerNode, []⟩,
    ⟨.def_property_readonly, "delta_v_per_leg", .getDeltaVPerLeg, []⟩,
    ⟨.def_property_readonly, "number_of_nodes", .getNumberOfNodes, []⟩,
    ⟨.def_property_readonly, "number_of_legs", .getNumberOfLegs, []⟩ ]

/-- Reader names listed by the specification (section 6). -/
def specReaderNames : List String :=
  [ "delta_v", "time_of_flight", "delta_v_per_node", "delta_v_per_leg",
    "single_node_delta_v", "single_leg_delta_v", "number_of_nodes",
    "number_of_legs", "states_along_trajectory" ]

/-! ## expose_interpolators.cpp, lines 48-66 -/

/-- Modelled from the spec: the declaration of `ti::BoundaryInterpolationType`
is in the tudat headers, not in the sources.  Its enumerators are the seven
the binding names (lines 49-55), one per boundary policy of the
specification, hence seven different values. -/
inductive BoundaryInterpolationType
  | throw_exception_at_boundary
  | use_boundary_value
  | use_boundary_value_with_warning
  | extrapolate_at_boundary
  | extrapolate_at_boundary_with_warning
  | use_default_value
  | use_default_value_with_warning
  deriving DecidableEq, Repr

/-- C++ identifier of an enumerator of `ti::BoundaryInterpolationType`. -/
def BoundaryInterpolationType.identifier : BoundaryInterpolationType → String
  | .throw_exception_at_boundary => "throw_exception_at_boundary"
  | .use_boundary_value => "use_boundary_value"
  | .use_boundary_value_with_warning => "use_boundary_value_with_warning"
  | .extrapolate_at_boundary => "extrapolate_at_boundary"
  | .extrapolate_at_boundary_with_warning => "extrapolate_at_boundary_with_warning"
  | .use_default_value => "use_default_value"
  | .use_default_value_with_warning => "use_default_value_with_warning"

/-- The `py::enum_<ti::BoundaryInterpolationType>` registrations (lines 48-56). -/
def boundaryInterpolationTypeEnum : List (EnumValue BoundaryInterpolationType) :=
  [ ⟨"throw_exception_at_boundary", .throw_exception_at_boundary⟩,
    ⟨"use_boundary_value", .use_boundary_value⟩,
    ⟨"use_boundary_value_with_warning", .use_boundary_value_with_warning⟩,
    ⟨"extrapolate_at_boundary", .extrapolate_at_boundary⟩,
    ⟨"extrapolate_at_boundary_with_warning", .extrapolate_at_boundary_with_warning⟩,
    ⟨"use_default_value", .use_default_value⟩,
    ⟨"use_default_value_with_warning", .use_default_value_with_warning⟩ ]

/-- Boundary-handling policies as the specification words them (section 6):
raise, clamp, extrapolate or substitute a default; the flag says whether a
warning is emitted. -/
inductive BoundaryPolicy
  | raise
  | clamp (warning : Bool)
  | extrapolate (warning : Bool)
  | default (warning : Bool)
  deriving DecidableEq, Repr

/-- Policy of the specification an enumerator stands for, read off its name. -/
def BoundaryInterpolationType.policy : BoundaryInterpolationType → BoundaryPolicy
  | .throw_exception_at_boundary => .raise
  | .use_boundary_value => .clamp false
  | .use_boundary_value_with_warning => .clamp true
  | .extrapolate_at_boundary => .extrapolate false
  | .extrapolate_at_boundary_with_warning => .extrapolate true
  | .use_default_value => .default false
  | .use_default_value_with_warning => .default true

/-- Modelled from the spec: the declaration of `ti::AvailableLookupScheme` is
in the tudat headers.  Its enumerators are the two the binding names (lines
59-60), the hunting search and the binary search of section 6. -/
inductive AvailableLookupScheme
  | huntingAlgorithm
  | binarySearch
  deriving DecidableEq, Repr

/-- The `py::enum_<ti::AvailableLookupScheme>` registrations (lines 58-61). -/
def availableLookupSchemeEnum : List (EnumValue AvailableLookupScheme) :=
  [ ⟨"hunting_algorithm", .huntingAlgorithm⟩,
    ⟨"binary_search", .binarySearch⟩ ]

/-- Modelled from the spec: the declaration of
`ti::LagrangeInterpolatorBoundaryHandling` is in the tudat headers.  Its
enumerators are the two the sources name, one per boundary sub-policy of the
specification: `lagrange_no_boundary_interpolation` (lines 64-65) and
`lagrange_cubic_spline_boundary_interpolation` (lines 86 and 107). -/
inductive LagrangeInterpolatorBoundaryHandling
  | lagrange_cubic_spline_boundary_interpolation
  | lagrange_no_boundary_interpolation
  deriving DecidableEq, Repr

/-- The `py::enum_<ti::LagrangeInterpolatorBoundaryHandling>` registrations
(lines 63-66): both `.value` calls pass `lagrange_no_boundary_interpolation`. -/
def lagrangeInterpolatorBoundaryHandlingEnum :
    List (EnumValue LagrangeInterpolatorBoundaryHandling) :=
  [ ⟨"lagrange_cubic_spline_boundary_interpolation", .lagrange_no_boundary_interpolation⟩,
    ⟨"lagrange_no_boundary_interpolation", .lagrange_no_boundary_interpolation⟩ ]

/-! ## expose_interpolators.cpp, lines 91-111 -/

/-- Settings factories of `tudat::interpolators` bound by the five `m.def`s
of lines 91-111. -/
inductive SettingsFactory
  | linearInterpolation
  | cubicSplineInterpolation
  | piecewiseConstantInterpolation
  | lagrangeInterpolation
  | hermiteInterpolation
  deriving DecidableEq, Repr

/-- Default value written after a `py::arg( ... ) =` in lines 91-111: an
enumerator of one of the three enumerations. -/
inductive ArgDefault
  | lookupScheme (scheme : AvailableLookupScheme)
  | boundaryInterpolation (boundary : BoundaryInterpolationType)
  | lagrangeBoundaryHandling (handling : LagrangeInterpolatorBoundaryHandling)
  deriving DecidableEq, Repr

/-- A `py::arg` of a settings factory: its name and its default, absent when
the binding gives none (the caller must then pass the argument). -/
structure FactoryArg where
  name : String
  defaultValue : Option ArgDefault
  deriving DecidableEq, Repr

/-- One `m.def` of a settings factory: Python name, bound function, `py::arg`s
in order. -/
structure SettingsFactoryDef where
  pyName : String
  target : SettingsFactory
  args : List FactoryArg
  deriving DecidableEq, Repr

/-- The five `m.def`s of the settings factories (lines 91-111), in source order. -/
def settingsFactoryDefs : List SettingsFactoryDef :=
  [ ⟨"linear_interpolation", .linearInterpolation,
      [⟨"lookup_scheme", some (.lookupScheme .huntingAlgorithm)⟩,
       ⟨"boundary_interpolation",
        some (.boundaryInterpolation .extrapolate_at_boundary_with_warning)⟩]⟩,
    ⟨"cubic_spline_interpolation", .cubicSplineInterpolation,
      [⟨"lookup_scheme", some (.lookupScheme .huntingAlgorithm)⟩,
       ⟨"boundary_interpolation",
        some (.boundaryInterpolation .extrapolate_at_boundary_with_warning)⟩]⟩,
    ⟨"piecewise_constant_interpolation", .piecewiseConstantInterpolation,
      [⟨"lookup_scheme", some (.lookupScheme .huntingAlgorithm)⟩,
       ⟨"boundary_interpolation",
        some (.boundaryInterpolation .extrapolate_at_boundary_with_warning)⟩]⟩,
    ⟨"lagrange_interpolation", .lagrangeInterpolation,
      [⟨"order", none⟩,
       ⟨"lookup_scheme", some (.lookupScheme .huntingAlgorithm)⟩,
       ⟨"boundary_interpolation",
        some (.boundaryInterpolation .extrapolate_at_boundary_with_warning)⟩,
       ⟨"lagrange_boundary_handling",
        some (.lagrangeBoundaryHandling .lagrange_cubic_spline_boundary_interpolation)⟩]⟩,
    ⟨"hermiteinterpolation", .hermiteInterpolation,
      [⟨"lookup_scheme", some (.lookupScheme .huntingAlgorithm)⟩,
       ⟨"boundary_interpolation",
        some (.boundaryInterpolation .extrapolate_at_boundary_with_warning)⟩]⟩ ]

/-- Value the bound function receives for the argument `name` when the
caller omits it: the default of the first `py::arg` of that name, absent when
there is no such argument or it has no default. -/
def SettingsFactoryDef.valueWhenOmitted (d : SettingsFactoryDef) (name : String) :
    Option ArgDefault :=
  (d.args.find? (fun a => a.name == name)).bind (fun a => a.defaultValue)

/-- Names of the arguments the caller cannot omit: those without a default. -/
def SettingsFactoryDef.requiredArgs (d : SettingsFactoryDef) : List String :=
  (d.args.filter (fun a => a.defaultValue.isNone)).map (fun a => a.name)

/-! ## expose_interpolators.cpp, lines 26-39 and 113-177 -/

/-- Dependent-variable types the binding instantiates the interpolator
templates with (the independent variable is `double` throughout). -/
inductive DependentVariableType
  | double
  | VectorXd
  | MatrixXd
  | Vector6d
  deriving DecidableEq, Repr

/-- A `py::arg`: its name and whether the binding gives it a default. -/
structure PyArg where
  name : String
  hasDefault : Bool
  deriving DecidableEq, Repr

/-- One `m.def` of `ti::createOneDimensionalInterpolatorBasic< double, D >`.
By its signature (lines 26-28) the bound function returns a
`OneDimensionalInterpolator< double, D >`. -/
structure InterpolatorFactoryDef where
  pyName : String
  dependent : DependentVariableType
  args : List PyArg
  deriving DecidableEq, Repr

/-- The four `m.def`s of `createOneDimensionalInterpolatorBasic` (lines 113-136). -/
def createInterpolatorDefs : List InterpolatorFactoryDef :=
  [ ⟨"create_one_dimensional_interpolator", .double,
      [⟨"data_to_interpolate", false⟩, ⟨"interpolator_settings", false⟩,
       ⟨"data_first_derivatives", true⟩]⟩,
    ⟨"create_one_dimensional_interpolator", .VectorXd,
      [⟨"data_to_interpolate", false⟩, ⟨"interpolator_settings", false⟩,
       ⟨"data_first_derivatives", true⟩]⟩,
    ⟨"create_one_dimensional_interpolator", .MatrixXd,
      [⟨"data_to_interpolate", false⟩, ⟨"interpolator_settings", false⟩,
       ⟨"data_first_derivatives", true⟩]⟩,
    ⟨"create_one_dimensional_interpolator_Vector6d", .Vector6d,
      [⟨"data_to_interpolate", false⟩, ⟨"interpolator_settings", false⟩,
       ⟨"data_first_derivatives", true⟩]⟩ ]

/-- Overload of `OneDimensionalInterpolator::interpolate` picked by a
`py::overload_cast`: `const double` (one independent value) or
`const std::vector< double >&` (a sequence of independent values). -/
inductive InterpolateOverload
  | constDouble
  | constVectorDoubleRef
  deriving DecidableEq, Repr

/-- One `.def` on an interpolator class: Python name, overload, `py::arg`. -/
structure InterpolatorMethod where
  pyName : String
  overload : InterpolateOverload
  arg : String
  deriving DecidableEq, Repr

/-- One `py::class_< ti::OneDimensionalInterpolator< double, D > >`. -/
structure InterpolatorClass where
  pyName : String
  dependent : DependentVariableType
  methods : List InterpolatorMethod
  deriving DecidableEq, Repr

/-- The four interpolator classes the binding registers (lines 138-177). -/
def interpolatorClasses : List InterpolatorClass :=
  [ ⟨"OneDimensionalInterpolatorDouble", .double,
      [⟨"interpolate", .constDouble, "independent_variable_value"⟩,
       ⟨"interpolate", .constVectorDoubleRef, "independent_variable_values"⟩]⟩,
    ⟨"OneDimensionalInterpolatorVector", .VectorXd,
      [⟨"interpolate", .constDouble, "independent_variable_value"⟩,
       ⟨"interpolate", .constVectorDoubleRef, "independent_variable_values"⟩]⟩,
    ⟨"OneDimensionalInterpolatorMatrix", .MatrixXd,
      [⟨"interpolate", .constDouble, "independent_variable_value"⟩,
       ⟨"interpolate", .constVectorDoubleRef, "independent_variable_values"⟩]⟩,
    ⟨"OneDimensionalInterpolatorVector6d", .Vector6d,
      [⟨"interpolate", .constDouble, "independent_variable_value"⟩,
       ⟨"interpolate", .constVectorDoubleRef, "independent_variable_values"⟩]⟩ ]

/-- Python class of the interpolator an `m.def` of the factory returns: the
one registered for the same `OneDimensionalInterpolator< double, D >`. -/
def InterpolatorFactoryDef.returnedClass (f : InterpolatorFactoryDef) :
    Option InterpolatorClass :=
  interpolatorClasses.find? (fun c => c.dependent == f.dependent)

/-- Whether a class offers `interpolate` with the given overload. -/
def InterpolatorClass.offers (c : InterpolatorClass) (o : InterpolateOverload) : Bool :=
  c.methods.any (fun m => m.pyName == "interpolate" && m.overload == o)

/-- What `create_one_dimensional_interpolator` offers for a dependent-variable
type: the Python class of the interpolator returned by the overload for that
type, and whether that class has `interpolate` for one independent value and
for a sequence of independent values.  Absent when no overload of that name
exists for the type or its return type is not registered. -/
def createOneDimensionalInterpolatorOffer (d : DependentVariableType) :
    Option (String × Bool × Bool) :=
  ((createInterpolatorDefs.find?
      (fun f => f.pyName == "create_one_dimensional_interpolator" && f.dependent == d)).bind
    (fun f => f.returnedClass)).map
    (fun c => (c.pyName, c.offers .constDouble, c.offers .constVectorDoubleRef))

/-- Interpolation algorithms of the five settings factories (lines 91-111);
Lagrange interpolation carries its order. -/
inductive InterpolationAlgorithm
  | linear
  | cubicSpline
  | piecewiseConstant
  | lagrange (order : Nat)
  | hermite
  deriving DecidableEq, Repr

/-- Modelled from the spec: `ti::InterpolatorSettings` is declared in the
tudat headers.  Settings select an algorithm, a lookup scheme and a
boundary-handling policy (section 6). -/
structure InterpolatorSettings where
  algorithm : InterpolationAlgorithm
  lookupScheme : AvailableLookupScheme
  boundaryHandling : BoundaryInterpolationType
  deriving DecidableEq, Repr

/-- Arguments of one call of the four-argument
`ti::createOneDimensionalInterpolator` (lines 34-38). -/
structure InterpolatorRequest (ι δ : Type) where
  dataToInterpolate : List (ι × δ)
  interpolatorSettings : InterpolatorSettings
  defaultExtrapolationValue : δ × δ
  firstDerivativesOfDataToIntepolate : List δ

/-- The wrapper `createOneDimensionalInterpolatorBasic` (lines 26-39).
`createOneDimensionalInterpolator` (the tudat factory) and
`getAdditionIdentity` (`IdentityElement::getAdditionIdentity< D >( )`) are
not in the sources and are parameters.  The std::map is a list of pairs. -/
def createOneDimensionalInterpolatorBasic {ι δ ρ : Type} (getAdditionIdentity : δ)
    (createOneDimensionalInterpolator :
      List (ι × δ) → InterpolatorSettings → δ × δ → List δ → ρ)
    (dataToInterpolate : List (ι × δ)) (interpolatorSettings : InterpolatorSettings)
    (firstDerivativesOfDataToIntepolate : List δ) : ρ :=
  createOneDimensionalInterpolator dataToInterpolate interpolatorSettings
    (getAdditionIdentity, getAdditionIdentity) firstDerivativesOfDataToIntepolate

/-- The pair of default extrapolation values the wrapper hands to the
underlying factory, as a function of the caller's three arguments. -/
def handedDefaultValues {ι δ : Type} (getAdditionIdentity : δ)
    (dataToInterpolate : List (ι × δ)) (interpolatorSettings : InterpolatorSettings)
    (firstDerivativesOfDataToIntepolate : List δ) : δ × δ :=
  (createOneDimensionalInterpolatorBasic getAdditionIdentity InterpolatorRequest.mk
    dataToInterpolate interpolatorSettings
    firstDerivativesOfDataToIntepolate).defaultExtrapolationValue

/-! ## Transfer trajectory: model of `tms::TransferTrajectory`

The class `tms::TransferTrajectory`, `tms::createTransferTrajectory` and the
leg and node classes live in the tudat library; the sources only bind them.
The definitions of this section are therefore modelled from the
specification (sections 3, 4 and 7).  Scalars (`double` in the binding) are
an arbitrary type `α` with `0`, `+` and `-`; no law of arithmetic is assumed.
Velocities and states are lists of scalars. -/

/-- Modelled from the spec: the declaration of `tms::TransferLegTypes` is in
the tudat headers.  Its enumerators are the three the binding names (lines
34-45), the three leg variants of section 3. -/
inductive TransferLegTypes
  | unpowered_unperturbed_leg
  | dsm_position_based_leg
  | dsm_velocity_based_leg
  deriving DecidableEq, Repr

/-- Modelled from the spec: the three node variants of section 3, one per
node-settings class the binding registers (lines 52-68). -/
inductive TransferNodeTypes
  | swingby
  | escape_and_departure
  | capture_and_insertion
  deriving DecidableEq, Repr

/-- Modelled from the spec: the error taxonomy of section 7. -/
inductive TrajectoryError
  | ConfigurationError
  | MissingEnvironmentData
  | StructuralMismatchError
  | ParameterDimensionError
  | InfeasibleNodeError (nodeIndex : Nat)
  | NotYetEvaluatedError
  deriving DecidableEq, Repr

/-- Modelled from the spec: `LegSettings` (section 3), a tag selecting the
leg kinematics model. -/
structure TransferLegSettings where
  legType : TransferLegTypes
  deriving DecidableEq, Repr

/-- Modelled from the spec: `NodeSettings` (section 3).  Departure and
capture orbits are (semi-major axis, eccentricity) pairs and a swingby has a
minimum periapsis radius; `none` stands for the unconstrained / default
sentinel. -/
inductive TransferNodeSettings (α : Type)
  | swingbyNode (minimumPeriapsis : Option α)
  | escapeAndDepartureNode (departureOrbit : Option (α × α))
  | captureAndInsertionNode (captureOrbit : Option (α × α))

/-- Modelled from the spec: the length of the free-parameter vector each leg
and node type expects (section 4.3).  Unpowered legs expect an empty vector;
the other sizes are fixed per type and not given by the specification. -/
structure ParameterLayout where
  dsmPositionBased : Nat
  dsmVelocityBased : Nat
  node : TransferNodeTypes → Nat

/-- Expected length of a leg's free-parameter vector. -/
def ParameterLayout.leg (L : ParameterLayout) : TransferLegTypes → Nat
  | .unpowered_unperturbed_leg => 0
  | .dsm_position_based_leg => L.dsmPositionBased
  | .dsm_velocity_based_leg => L.dsmVelocityBased

/-- Modelled from the spec: what a leg yields once evaluated (section 4.3,
step 2, and section 4.4): its own delta-v, the asymptotic velocities it
requires at departure and at arrival, and its sampled states for a given
number of samples. -/
structure LegResult (α : Type) where
  deltaV : α
  departureVelocity : List α
  arrivalVelocity : List α
  sample : Nat → List (α × List α)

/-- Modelled from the spec: an evaluable leg.  Its kinematics (an excluded
collaborator) maps departure epoch, arrival epoch and free parameters to a
`LegResult`. -/
structure LegModel (α : Type) where
  legType : TransferLegTypes
  compute : α → α → List α → LegResult α

/-- Modelled from the spec: an evaluable node.  From its epoch, its free
parameters, the asymptotic velocity delivered by the incoming leg and the one
required by the outgoing leg (each absent at an end of the trajectory) it
yields its delta-v, or `none` when its constraint cannot be met. -/
structure NodeModel (α : Type) where
  nodeType : TransferNodeTypes
  compute : α → List α → Option (List α) → Option (List α) → Option α

/-- Modelled from the spec: the cached outputs of the last successful
evaluation (section 3), with the evaluated legs the sampler walks. -/
structure Evaluation (α : Type) where
  totalDeltaV : α
  totalTimeOfFlight : α
  deltaVPerNode : List α
  deltaVPerLeg : List α
  evaluatedLegs : List (LegResult α)

/-- Modelled from the spec: `TransferTrajectory` (section 3): the node and
leg models in order, the body order, the central body and the last
evaluation, absent until `evaluate` first succeeds. -/
structure TransferTrajectory (α : Type) where
  nodes : List (NodeModel α)
  legs : List (LegModel α)
  bodyOrder : List String
  centralBody : String
  lastEvaluation : Option (Evaluation α)

/-- Modelled from the spec: the leg/node factory (section 4.1).  From the
bodies, the body order, the central body, an index and one settings instance
it yields a model or fails (`ConfigurationError`, `MissingEnvironmentData`). -/
structure Factory (β α : Type) where
  createLeg : β → List String → String → Nat → TransferLegSettings →
    Except TrajectoryError (LegModel α)
  createNode : β → List String → String → Nat → TransferNodeSettings α →
    Except TrajectoryError (NodeModel α)

/-- Node models for the settings from index `i` on, in order; the first
failure is the result. -/
def buildNodes {β α : Type} (F : Factory β α) (bodies : β) (nodeNames : List String)
    (centralBody : String) : Nat → List (TransferNodeSettings α) →
    Except TrajectoryError (List (NodeModel α))
  | _, [] => .ok []
  | i, s :: rest =>
    match F.createNode bodies nodeNames centralBody i s with
    | .error e => .error e
    | .ok node =>
      match buildNodes F bodies nodeNames centralBody (i + 1) rest with
      | .error e => .error e
      | .ok nodes => .ok (node :: nodes)

/-- Leg models for the settings from index `i` on, in order; the first
failure is the result. -/
def buildLegs {β α : Type} (F : Factory β α) (bodies : β) (nodeNames : List String)
    (centralBody : String) : Nat → List TransferLegSettings →
    Except TrajectoryError (List (LegModel α))
  | _, [] => .ok []
  | i, s :: rest =>
    match F.createLeg bodies nodeNames centralBody i s with
    | .error e => .error e
    | .ok leg =>
      match buildLegs F bodies nodeNames centralBody (i + 1) rest with
      | .error e => .error e
      | .ok legs => .ok (leg :: legs)

/-- Modelled from the spec: `tms::createTransferTrajectory` is not in the
sources; this is the Trajectory Assembler of section 4.2.  The counts must
satisfy `len(leg_settings) + 1 == len(node_settings) == len(node_names)`, else
`StructuralMismatchError`; then all models are built and stored in order,
with no evaluation cached. -/
def createTransferTrajectory {β α : Type} (F : Factory β α) (bodies : β)
    (legSettings : List TransferLegSettings) (nodeSettings : List (TransferNodeSettings α))
    (nodeNames : List String) (centralBody : String) :
    Except TrajectoryError (TransferTrajectory α) :=
  if legSettings.length + 1 = nodeSettings.length ∧ nodeSettings.length = nodeNames.length then
    match buildNodes F bodies nodeNames centralBody 0 nodeSettings with
    | .error e => .error e
    | .ok nodes =>
      match buildLegs F bodies nodeNames centralBody 0 legSettings with
      | .error e => .error e
      | .ok legs => .ok ⟨nodes, legs, nodeNames, centralBody, none⟩
  else .error .StructuralMismatchError

/-! ### Evaluator (section 4.3) -/

section Evaluator

variable {α : Type} [Zero α] [Add α] [Sub α]

/-- An evaluation request (section 3): node epochs and the free-parameter
vectors per leg and per node. -/
structure EvaluationRequest (α : Type) where
  nodeTimes : List α
  legParameters : List (List α)
  nodeParameters : List (List α)

/-- Dimension preconditions of `evaluate`: `N` node epochs, `N-1` leg
parameter vectors and `N` node parameter vectors, `N` the number of nodes,
each vector of the length its leg's or node's type expects. -/
def dimensionsMatch (L : ParameterLayout) (t : TransferTrajectory α) (nodeTimes : List α)
    (legParameters nodeParameters : List (List α)) : Bool :=
  nodeTimes.length == t.nodes.length
    && legParameters.length == t.nodes.length - 1
    && nodeParameters.length == t.nodes.length
    && (t.legs.zip legParameters).all (fun x => x.2.length == L.leg x.1.legType)
    && (t.nodes.zip nodeParameters).all (fun x => x.2.length == L.node x.1.nodeType)

/-- Step 2 for every leg in order: leg `i` is computed between the epochs of
node `i` and node `i+1` with its free parameters. -/
def evaluateLegs : List (LegModel α) → List α → List (List α) → List (LegResult α)
  | leg :: legs, t0 :: t1 :: times, p :: ps =>
    leg.compute t0 t1 p :: evaluateLegs legs (t1 :: times) ps
  | _, _, _ => []

/-- Delta-v contribution of an evaluated leg: zero for an unpowered leg, the
leg's own delta-v otherwise. -/
def legDeltaV (leg : LegModel α) (r : LegResult α) : α :=
  match leg.legType with
  | .unpowered_unperturbed_leg => 0
  | _ => r.deltaV

/-- Per-leg delta-v vector of the evaluated legs. -/
def legContributions (legs : List (LegModel α)) (results : List (LegResult α)) : List α :=
  (legs.zip results).map (fun x => legDeltaV x.1 x.2)

/-- Steps 1 and 3 for the nodes from index `j` on, left to right: the
incoming correction of node `j` (step 3 of iteration `j-1`) and its outgoing
correction (step 1 of iteration `j`) make up its one entry of the per-node
vector.  `incoming` is the arrival velocity of the leg ending at node `j`
(absent at the first node) and `results` are the legs from leg `j` on.  A
node whose constraint cannot be met stops the pass with
`InfeasibleNodeError j`. -/
def evaluateNodes : Nat → List (NodeModel α) → List α → List (List α) →
    Option (List α) → List (LegResult α) → Except TrajectoryError (List α)
  | j, node :: nodes, tj :: times, p :: ps, incoming, results =>
    match node.compute tj p incoming (results.head?.map (fun r => r.departureVelocity)) with
    | none => .error (.InfeasibleNodeError j)
    | some dv =>
      match evaluateNodes (j + 1) nodes times ps
          (results.head?.map (fun r => r.arrivalVelocity)) results.tail with
      | .error e => .error e
      | .ok dvs => .ok (dv :: dvs)
  | _, _, _, _, _, _ => .ok []

/-- Total time of flight `node_times[N-1] - node_times[0]` for `N` nodes
(zero when there is no node at all). -/
def totalTimeOfFlight (n : Nat) (nodeTimes : List α) : α :=
  match nodeTimes[0]?, nodeTimes[n - 1]? with
  | some first, some last => last - first
  | _, _ => 0

/-- Result of one `evaluate` call: what the caller gets (nothing, or an
error) and the trajectory after the call. -/
structure EvaluateOutcome (α : Type) where
  result : Except TrajectoryError Unit
  trajectory : TransferTrajectory α

namespace TransferTrajectory

/-- Modelled from the spec: `evaluateTrajectory` (Python `evaluate`) is not in
the sources; this is the Evaluator of section 4.3.  A dimension mismatch
fails with `ParameterDimensionError`; an infeasible node fails with
`InfeasibleNodeError`; a failure leaves the trajectory as it was.  On
success the cache is overwritten: total delta-v = sum of the node
contributions + sum of the leg contributions, total time of flight =
`node_times[N-1] - node_times[0]`, and the per-node and per-leg vectors.
That the epochs increase is a precondition with no error of its own in the
taxonomy and is not checked. -/
def evaluateTrajectory (L : ParameterLayout) (t : TransferTrajectory α) (nodeTimes : List α)
    (legParameters nodeParameters : List (List α)) : EvaluateOutcome α :=
  if dimensionsMatch L t nodeTimes legParameters nodeParameters then
    let results := evaluateLegs t.legs nodeTimes legParameters
    match evaluateNodes 0 t.nodes nodeTimes nodeParameters none results with
    | .error e => ⟨.error e, t⟩
    | .ok perNode =>
      let perLeg := legContributions t.legs results
      ⟨.ok (), ⟨t.nodes, t.legs, t.bodyOrder, t.centralBody,
        some ⟨perNode.sum + perLeg.sum, totalTimeOfFlight t.nodes.length nodeTimes,
          perNode, perLeg, results⟩⟩⟩
  else ⟨.error .ParameterDimensionError, t⟩

/-- A reader on cached state: `NotYetEvaluatedError` while no evaluation is
cached, else the value read off the last evaluation. -/
def readCache {γ : Type} (t : TransferTrajectory α) (f : Evaluation α → γ) :
    Except TrajectoryError γ :=
  match t.lastEvaluation with
  | none => .error .NotYetEvaluatedError
  | some e => .ok (f e)

/-- Modelled from the spec: reader `delta_v`. -/
def getTotalDeltaV (t : TransferTrajectory α) : Except TrajectoryError α :=
  t.readCache (fun e => e.totalDeltaV)

/-- Modelled from the spec: reader `time_of_flight`. -/
def getTotalTimeOfFlight (t : TransferTrajectory α) : Except TrajectoryError α :=
  t.readCache (fun e => e.totalTimeOfFlight)

/-- Modelled from the spec: reader `delta_v_per_node`. -/
def getDeltaVPerNode (t : TransferTrajectory α) : Except TrajectoryError (List α) :=
  t.readCache (fun e => e.deltaVPerNode)

/-- Modelled from the spec: reader `delta_v_per_leg`. -/
def getDeltaVPerLeg (t : TransferTrajectory α) : Except TrajectoryError (List α) :=
  t.readCache (fun e => e.deltaVPerLeg)

/-- Modelled from the spec: reader `single_node_delta_v(i)`; the entry is
absent when `i` is not a node index. -/
def getNodeDeltaV (t : TransferTrajectory α) (nodeIndex : Nat) :
    Except TrajectoryError (Option α) :=
  t.readCache (fun e => e.deltaVPerNode[nodeIndex]?)

/-- Modelled from the spec: reader `single_leg_delta_v(i)`; the entry is
absent when `i` is not a leg index. -/
def getLegDeltaV (t : TransferTrajectory α) (legIndex : Nat) :
    Except TrajectoryError (Option α) :=
  t.readCache (fun e => e.deltaVPerLeg[legIndex]?)

/-- Modelled from the spec: reader `number_of_nodes`. -/
def getNumberOfNodes (t : TransferTrajectory α) : Nat :=
  t.nodes.length

/-- Modelled from the spec: reader `number_of_legs`. -/
def getNumberOfLegs (t : TransferTrajectory α) : Nat :=
  t.legs.length

/-- Modelled from the spec: the State Sampler of section 4.4 (Python
`states_along_trajectory`): the samples of every evaluated leg, in leg order. -/
def getStatesAlongTrajectory (t : TransferTrajectory α) (numberOfDataPointsPerLeg : Nat) :
    Except TrajectoryError (List (α × List α)) :=
  t.readCache (fun e => (e.evaluatedLegs.map (fun r => r.sample numberOfDataPointsPerLeg)).flatten)

/-- A sequence of `evaluate` calls: the result of each call, in order, and
the trajectory after the last one. -/
def evaluateAll (L : ParameterLayout) (t : TransferTrajectory α) :
    List (EvaluationRequest α) → List (Except TrajectoryError Unit) × TransferTrajectory α
  | [] => ([], t)
  | r :: rest =>
    let o := evaluateTrajectory L t r.nodeTimes r.legParameters r.nodeParameters
    let after := evaluateAll L o.trajectory rest
    (o.result :: after.1, after.2)

end TransferTrajectory

end Evaluator

/-! ### A two-node trajectory used to instantiate the results

One unpowered leg between a departure node with no imposed orbit and a
capture node with orbit (7000 km, 0.01), over rational scalars.  The leg and
node kinematics are stand-ins: the leg asks for the flight time as asymptotic
speed at both ends and is sampled on a uniform grid, a node charges the speed
it has to match plus the sum of its free parameters. -/

namespace Sample

/-- Parameter layout: four parameters per DSM leg, none per node. -/
def layout : ParameterLayout :=
  ⟨4, 4, fun _ => 0⟩

/-- Stand-in leg kinematics for every leg type. -/
def legModel (legType : TransferLegTypes) : LegModel ℚ :=
  ⟨legType, fun t0 t1 p =>
    ⟨p.sum, [t1 - t0], [t1 - t0], fun n => (List.range n).map (fun k => (t0 + k * (t1 - t0) / n, [t0, t1]))⟩⟩

/-- Stand-in node kinematics for every node type. -/
def nodeModel (nodeType : TransferNodeTypes) : NodeModel ℚ :=
  ⟨nodeType, fun _ p incoming outgoing =>
    some (p.sum + (incoming.getD []).sum + (outgoing.getD []).sum)⟩

/-- Factory that never fails. -/
def factory : Factory Unit ℚ :=
  ⟨fun _ _ _ _ s => .ok (legModel s.legType),
   fun _ _ _ _ s =>
    match s with
    | .swingbyNode _ => .ok (nodeModel .swingby)
    | .escapeAndDepartureNode _ => .ok (nodeModel .escape_and_departure)
    | .captureAndInsertionNode _ => .ok (nodeModel .capture_and_insertion)⟩

/-- Settings of the single unpowered leg. -/
def legSettings : List TransferLegSettings :=
  [⟨.unpowered_unperturbed_leg⟩]

/-- Settings of the departure node and of the capture node. -/
def nodeSettings : List (TransferNodeSettings ℚ) :=
  [.escapeAndDepartureNode none, .captureAndInsertionNode (some (7000, 1 / 100))]

/-- The trajectory the assembler builds from these settings. -/
def trajectory : TransferTrajectory ℚ :=
  ⟨[nodeModel .escape_and_departure, nodeModel .capture_and_insertion],
   [legModel .unpowered_unperturbed_leg], ["Earth", "Mars"], "Sun", none⟩

/-- A well-dimensioned request: epochs 0 s and 86400 s, no free parameter. -/
def request : EvaluationRequest ℚ :=
  ⟨[0, 86400], [[]], [[], []]⟩

/-- A request whose leg-parameter vector has one entry too many. -/
def badRequest : EvaluationRequest ℚ :=
  ⟨[0, 86400], [[1]], [[], []]⟩

/-- The sample trajectory after one successful evaluation. -/
def evaluated : TransferTrajectory ℚ :=
  (trajectory.evaluateTrajectory layout request.nodeTimes request.legParameters
    request.nodeParameters).trajectory

end Sample

/-! ## Results on the transfer trajectory model -/

section StructuralResults

variable {α : Type}

/-- The node models built by the assembler are as many as the settings. -/
theorem buildNodes_length {β : Type} (F : Factory β α) (bodies : β) (nodeNames : List String)
    (centralBody : String) (settings : List (TransferNodeSettings α)) (i : Nat)
    (nodes : List (NodeModel α))
    (h : buildNodes F bodies nodeNames centralBody i settings = .ok nodes) :
    nodes.length = settings.length := by
  induction settings generalizing i nodes with
  | nil =>
    simp only [buildNodes] at h
    cases h
    rfl
  | cons s rest ih =>
    simp only [buildNodes] at h
    split at h
    · cases h
    · split at h
      · cases h
      · rename_i built hbuilt
        cases h
        simp [ih (i + 1) built hbuilt]

/-- The leg models built by the assembler are as many as the settings. -/
theorem buildLegs_length {β : Type} (F : Factory β α) (bodies : β) (nodeNames : List String)
    (centralBody : String) (settings : List TransferLegSettings) (i : Nat)
    (legs : List (LegModel α))
    (h : buildLegs F bodies nodeNames centralBody i settings = .ok legs) :
    legs.length = settings.length := by
  induction settings generalizing i legs with
  | nil =>
    simp only [buildLegs] at h
    cases h
    rfl
  | cons s rest ih =>
    simp only [buildLegs] at h
    split at h
    · cases h
    · split at h
      · cases h
      · rename_i built hbuilt
        cases h
        simp [ih (i + 1) built hbuilt]

/-- A trajectory returned by the assembler has one leg less than nodes and
no cached evaluation. -/
theorem createTransferTrajectory_ok {β : Type} (F : Factory β α) (bodies : β)
    (legSettings : List TransferLegSettings) (nodeSettings : List (TransferNodeSettings α))
    (nodeNames : List String) (centralBody : String) (t : TransferTrajectory α)
    (h : createTransferTrajectory F bodies legSettings nodeSettings nodeNames centralBody
      = .ok t) :
    t.legs.length + 1 = t.nodes.length ∧ t.lastEvaluation = none := by
  unfold createTransferTrajectory at h
  split at h
  · rename_i hcount
    split at h
    · cases h
    · rename_i nodes hnodes
      split at h
      · cases h
      · rename_i legs hlegs
        cases h
        have h1 := buildNodes_length F bodies nodeNames centralBody nodeSettings 0 nodes hnodes
        have h2 := buildLegs_length F bodies nodeNames centralBody legSettings 0 legs hlegs
        exact ⟨by simp only [h1, h2]; exact hcount.1, rfl⟩
  · cases h

/-- A leg-parameter vector of the wrong length makes the dimension check fail. -/
theorem dimensionsMatch_wrong_leg (L : ParameterLayout) (t : TransferTrajectory α)
    (nodeTimes : List α) (legParameters nodeParameters : List (List α))
    (i : Nat) (leg : LegModel α) (p : List α)
    (hleg : t.legs[i]? = some leg) (hp : legParameters[i]? = some p)
    (hne : p.length ≠ L.leg leg.legType) :
    dimensionsMatch L t nodeTimes legParameters nodeParameters = false := by
  have hz : (t.legs.zip legParameters)[i]? = some (leg, p) :=
    List.getElem?_zip_eq_some.mpr ⟨hleg, hp⟩
  have hmem := List.getElem?_mem hz
  cases hd : dimensionsMatch L t nodeTimes legParameters nodeParameters
  · rfl
  · simp only [dimensionsMatch, Bool.and_eq_true, List.all_eq_true, beq_iff_eq] at hd
    exact absurd (hd.1.2 (leg, p) hmem) hne

end StructuralResults

section EvaluatorResults

variable {α : Type} [Zero α] [Add α] [Sub α]

open TransferTrajectory

/-- An `evaluate` call never changes the node and leg models. -/
theorem evaluateTrajectory_structure (L : ParameterLayout) (t : TransferTrajectory α)
    (nodeTimes : List α) (legParameters nodeParameters : List (List α)) :
    (t.evaluateTrajectory L nodeTimes legParameters nodeParameters).trajectory.nodes = t.nodes
    ∧ (t.evaluateTrajectory L nodeTimes legParameters nodeParameters).trajectory.legs
      = t.legs := by
  cases hd : dimensionsMatch L t nodeTimes legParameters nodeParameters
  · simp [evaluateTrajectory, hd]
  · cases hn : evaluateNodes 0 t.nodes nodeTimes nodeParameters none
      (evaluateLegs t.legs nodeTimes legParameters) <;>
    simp [evaluateTrajectory, hd, hn]

/-- A failed `evaluate` call leaves the trajectory as it was. -/
theorem evaluateTrajectory_failed (L : ParameterLayout) (t : TransferTrajectory α)
    (nodeTimes : List α) (legParameters nodeParameters : List (List α))
    (h : (t.evaluateTrajectory L nodeTimes legParameters nodeParameters).result ≠ .ok ()) :
    (t.evaluateTrajectory L nodeTimes legParameters nodeParameters).trajectory = t := by
  cases hd : dimensionsMatch L t nodeTimes legParameters nodeParameters
  · simp [evaluateTrajectory, hd]
  · cases hn : evaluateNodes 0 t.nodes nodeTimes nodeParameters none
      (evaluateLegs t.legs nodeTimes legParameters)
    · simp [evaluateTrajectory, hd, hn]
    · simp [evaluateTrajectory, hd, hn] at h

/-- What a successful `evaluate` call caches. -/
theorem evaluateTrajectory_succeeded (L : ParameterLayout) (t : TransferTrajectory α)
    (nodeTimes : List α) (legParameters nodeParameters : List (List α))
    (h : (t.evaluateTrajectory L nodeTimes legParameters nodeParameters).result = .ok ()) :
    nodeTimes.length = t.nodes.length ∧
    ∃ perNode perLeg results,
      (t.evaluateTrajectory L nodeTimes legParameters nodeParameters).trajectory.lastEvaluation
        = some ⟨perNode.sum + perLeg.sum, totalTimeOfFlight t.nodes.length nodeTimes,
            perNode, perLeg, results⟩ := by
  cases hd : dimensionsMatch L t nodeTimes legParameters nodeParameters
  · simp [evaluateTrajectory, hd] at h
  · cases hn : evaluateNodes 0 t.nodes nodeTimes nodeParameters none
      (evaluateLegs t.legs nodeTimes legParameters)
    · simp [evaluateTrajectory, hd, hn] at h
    · rename_i perNode
      refine ⟨?_, perNode,
        legContributions t.legs (evaluateLegs t.legs nodeTimes legParameters),
        evaluateLegs t.legs nodeTimes legParameters, ?_⟩
      · simp only [dimensionsMatch, Bool.and_eq_true, beq_iff_eq] at hd
        exact hd.1.1.1.1
      · simp only [evaluateTrajectory, hd, hn, if_true]

/-- A sequence of `evaluate` calls never changes the node and leg models. -/
theorem evaluateAll_structure (L : ParameterLayout) (requests : List (EvaluationRequest α))
    (t : TransferTrajectory α) :
    (evaluateAll L t requests).2.nodes = t.nodes
    ∧ (evaluateAll L t requests).2.legs = t.legs := by
  induction requests generalizing t with
  | nil => exact ⟨rfl, rfl⟩
  | cons r rest ih =>
    simp only [evaluateAll]
    have hs := evaluateTrajectory_structure L t r.nodeTimes r.legParameters r.nodeParameters
    have hr := ih (t.evaluateTrajectory L r.nodeTimes r.legParameters r.nodeParameters).trajectory
    exact ⟨hr.1.trans hs.1, hr.2.trans hs.2⟩

/-- A sequence of `evaluate` calls that all fail leaves the trajectory as it was. -/
theorem evaluateAll_failed (L : ParameterLayout) (requests : List (EvaluationRequest α))
    (t : TransferTrajectory α)
    (h : ∀ r ∈ (evaluateAll L t requests).1, r ≠ .ok ()) :
    (evaluateAll L t requests).2 = t := by
  induction requests generalizing t with
  | nil => rfl
  | cons r rest ih =>
    simp only [evaluateAll] at h ⊢
    have h0 := evaluateTrajectory_failed L t r.nodeTimes r.legParameters r.nodeParameters
      (h _ (List.mem_cons_self _ _))
    rw [h0] at h ⊢
    exact ih t (fun x hx => h x (List.mem_cons_of_mem _ hx))

/-- C1: after a successful `evaluate`, the value read through `delta_v` is
the sum of the entries of `delta_v_per_node` plus the sum of the entries of
`delta_v_per_leg`. -/
theorem delta_v_eq_sum_per_node_add_sum_per_leg (L : ParameterLayout)
    (t : TransferTrajectory α) (nodeTimes : List α)
    (legParameters nodeParameters : List (List α))
    (h : (t.evaluateTrajectory L nodeTimes legParameters nodeParameters).result = .ok ()) :
    ∃ perNode perLeg,
      (t.evaluateTrajectory L nodeTimes legParameters nodeParameters).trajectory.getDeltaVPerNode
        = .ok perNode ∧
      (t.evaluateTrajectory L nodeTimes legParameters nodeParameters).trajectory.getDeltaVPerLeg
        = .ok perLeg ∧
      (t.evaluateTrajectory L nodeTimes legParameters nodeParameters).trajectory.getTotalDeltaV
        = .ok (perNode.sum + perLeg.sum) := by
  obtain ⟨-, perNode, perLeg, results, hc⟩ :=
    evaluateTrajectory_succeeded L t nodeTimes legParameters nodeParameters h
  exact ⟨perNode, perLeg, by simp [getDeltaVPerNode, readCache, hc],
    by simp [getDeltaVPerLeg, readCache, hc], by simp [getTotalDeltaV, readCache, hc]⟩

/-- C2: after a successful `evaluate` with node epochs `node_times` of length
`N`, the value read through `time_of_flight` is `node_times[N-1] - node_times[0]`. -/
theorem time_of_flight_eq_last_sub_first (L : ParameterLayout)
    (t : TransferTrajectory α) (nodeTimes : List α)
    (legParameters nodeParameters : List (List α)) (first last : α)
    (h : (t.evaluateTrajectory L nodeTimes legParameters nodeParameters).result = .ok ())
    (hfirst : nodeTimes[0]? = some first)
    (hlast : nodeTimes[nodeTimes.length - 1]? = some last) :
    (t.evaluateTrajectory L nodeTimes legParameters nodeParameters).trajectory.getTotalTimeOfFlight
      = .ok (last - first) := by
  obtain ⟨hlen, perNode, perLeg, results, hc⟩ :=
    evaluateTrajectory_succeeded L t nodeTimes legParameters nodeParameters h
  rw [hlen] at hlast
  simp [getTotalTimeOfFlight, readCache, hc, totalTimeOfFlight, hfirst, hlast]

/-- C3: a trajectory returned by `create_transfer_trajectory` has
`number_of_legs + 1 = number_of_nodes`, so it has at least one node and
`number_of_legs = number_of_nodes - 1`; both still hold after any sequence of
`evaluate` calls. -/
theorem number_of_legs_add_one_eq_number_of_nodes {β : Type} (F : Factory β α) (bodies : β)
    (legSettings : List TransferLegSettings) (nodeSettings : List (TransferNodeSettings α))
    (nodeNames : List String) (centralBody : String) (t : TransferTrajectory α)
    (L : ParameterLayout) (requests : List (EvaluationRequest α))
    (hc : createTransferTrajectory F bodies legSettings nodeSettings nodeNames centralBody
      = .ok t) :
    (evaluateAll L t requests).2.getNumberOfLegs + 1
      = (evaluateAll L t requests).2.getNumberOfNodes ∧
    (evaluateAll L t requests).2.getNumberOfLegs
      = (evaluateAll L t requests).2.getNumberOfNodes - 1 := by
  have hw := (createTransferTrajectory_ok F bodies legSettings nodeSettings nodeNames
    centralBody t hc).1
  have hs := evaluateAll_structure L requests t
  simp only [getNumberOfLegs, getNumberOfNodes, hs.1, hs.2]
  omega

/-- C4: `evaluate` with a leg-parameter vector whose length differs from the
one its leg's type expects fails with `ParameterDimensionError`, and
`delta_v`, `time_of_flight`, `delta_v_per_node` and `delta_v_per_leg` read the
same after the failed call as before it. -/
theorem evaluate_wrong_leg_parameter_length (L : ParameterLayout)
    (t : TransferTrajectory α) (nodeTimes : List α)
    (legParameters nodeParameters : List (List α))
    (i : Nat) (leg : LegModel α) (p : List α)
    (hleg : t.legs[i]? = some leg) (hp : legParameters[i]? = some p)
    (hne : p.length ≠ L.leg leg.legType) :
    (t.evaluateTrajectory L nodeTimes legParameters nodeParameters).result
      = .error .ParameterDimensionError ∧
    (t.evaluateTrajectory L nodeTimes legParameters nodeParameters).trajectory.getTotalDeltaV
      = t.getTotalDeltaV ∧
    (t.evaluateTrajectory L nodeTimes legParameters nodeParameters).trajectory.getTotalTimeOfFlight
      = t.getTotalTimeOfFlight ∧
    (t.evaluateTrajectory L nodeTimes legParameters nodeParameters).trajectory.getDeltaVPerNode
      = t.getDeltaVPerNode ∧
    (t.evaluateTrajectory L nodeTimes legParameters nodeParameters).trajectory.getDeltaVPerLeg
      = t.getDeltaVPerLeg := by
  have hd := dimensionsMatch_wrong_leg L t nodeTimes legParameters nodeParameters i leg p
    hleg hp hne
  have hr : (t.evaluateTrajectory L nodeTimes legParameters nodeParameters).result
      = .error .ParameterDimensionError := by
    simp [evaluateTrajectory, hd]
  have ht := evaluateTrajectory_failed L t nodeTimes legParameters nodeParameters
    (by rw [hr]; simp)
  rw [ht]
  exact ⟨hr, rfl, rfl, rfl, rfl⟩

/-- C5: on a freshly created trajectory on which `evaluate` has never
succeeded, each of `delta_v`, `time_of_flight`, `delta_v_per_node`,
`delta_v_per_leg`, `single_node_delta_v(i)`, `single_leg_delta_v(i)` and
`states_along_trajectory(n)` raises `NotYetEvaluatedError`. -/
theorem readers_raise_before_first_successful_evaluate {β : Type} (F : Factory β α)
    (bodies : β) (legSettings : List TransferLegSettings)
    (nodeSettings : List (TransferNodeSettings α)) (nodeNames : List String)
    (centralBody : String) (t : TransferTrajectory α) (L : ParameterLayout)
    (requests : List (EvaluationRequest α)) (i n : Nat)
    (hc : createTransferTrajectory F bodies legSettings nodeSettings nodeNames centralBody
      = .ok t)
    (hfail : ∀ r ∈ (evaluateAll L t requests).1, r ≠ .ok ()) :
    (evaluateAll L t requests).2.getTotalDeltaV = .error .NotYetEvaluatedError ∧
    (evaluateAll L t requests).2.getTotalTimeOfFlight = .error .NotYetEvaluatedError ∧
    (evaluateAll L t requests).2.getDeltaVPerNode = .error .NotYetEvaluatedError ∧
    (evaluateAll L t requests).2.getDeltaVPerLeg = .error .NotYetEvaluatedError ∧
    (evaluateAll L t requests).2.getNodeDeltaV i = .error .NotYetEvaluatedError ∧
    (evaluateAll L t requests).2.getLegDeltaV i = .error .NotYetEvaluatedError ∧
    (evaluateAll L t requests).2.getStatesAlongTrajectory n
      = .error .NotYetEvaluatedError := by
  have hnone := (createTransferTrajectory_ok F bodies legSettings nodeSettings nodeNames
    centralBody t hc).2
  rw [evaluateAll_failed L requests t hfail]
  simp [getTotalDeltaV, getTotalTimeOfFlight, getDeltaVPerNode, getDeltaVPerLeg,
    getNodeDeltaV, getLegDeltaV, getStatesAlongTrajectory, readCache, hnone]

end EvaluatorResults

/-! ### The results at the sample trajectory -/

section SampleResults

open TransferTrajectory

/-- C1 at the sample trajectory, evaluated with epochs 0 s and 86400 s. -/
theorem delta_v_eq_sum_per_node_add_sum_per_leg_witness :
    (Sample.trajectory.evaluateTrajectory Sample.layout [0, 86400] [[]] [[], []]).result
      = .ok () ∧
    ∃ perNode perLeg,
      (Sample.trajectory.evaluateTrajectory Sample.layout [0, 86400] [[]]
        [[], []]).trajectory.getDeltaVPerNode = .ok perNode ∧
      (Sample.trajectory.evaluateTrajectory Sample.layout [0, 86400] [[]]
        [[], []]).trajectory.getDeltaVPerLeg = .ok perLeg ∧
      (Sample.trajectory.evaluateTrajectory Sample.layout [0, 86400] [[]]
        [[], []]).trajectory.getTotalDeltaV = .ok (perNode.sum + perLeg.sum) :=
  ⟨rfl, delta_v_eq_sum_per_node_add_sum_per_leg Sample.layout Sample.trajectory
    [0, 86400] [[]] [[], []] rfl⟩

/-- C2 at the sample trajectory: the time of flight read is 86400 s - 0 s. -/
theorem time_of_flight_eq_last_sub_first_witness :
    (Sample.trajectory.evaluateTrajectory Sample.layout [0, 86400] [[]] [[], []]).result
      = .ok () ∧
    ([0, 86400] : List ℚ)[0]? = some 0 ∧
    ([0, 86400] : List ℚ)[([0, 86400] : List ℚ).length - 1]? = some 86400 ∧
    (Sample.trajectory.evaluateTrajectory Sample.layout [0, 86400] [[]]
      [[], []]).trajectory.getTotalTimeOfFlight = .ok (86400 - 0) :=
  ⟨rfl, rfl, rfl, time_of_flight_eq_last_sub_first Sample.layout Sample.trajectory
    [0, 86400] [[]] [[], []] 0 86400 rfl rfl rfl⟩

/-- C3 at the sample trajectory, after one successful and one failed call. -/
theorem number_of_legs_add_one_eq_number_of_nodes_witness :
    createTransferTrajectory Sample.factory () Sample.legSettings Sample.nodeSettings
      ["Earth", "Mars"] "Sun" = .ok Sample.trajectory ∧
    ((evaluateAll Sample.layout Sample.trajectory
      [Sample.request, Sample.badRequest]).2.getNumberOfLegs + 1
      = (evaluateAll Sample.layout Sample.trajectory
          [Sample.request, Sample.badRequest]).2.getNumberOfNodes ∧
    (evaluateAll Sample.layout Sample.trajectory
      [Sample.request, Sample.badRequest]).2.getNumberOfLegs
      = (evaluateAll Sample.layout Sample.trajectory
          [Sample.request, Sample.badRequest]).2.getNumberOfNodes - 1) :=
  ⟨rfl, number_of_legs_add_one_eq_number_of_nodes Sample.factory () Sample.legSettings
    Sample.nodeSettings ["Earth", "Mars"] "Sun" Sample.trajectory Sample.layout
    [Sample.request, Sample.badRequest] rfl⟩

/-- C4 at the evaluated sample trajectory: one parameter is passed to the
unpowered leg, which expects none. -/
theorem evaluate_wrong_leg_parameter_length_witness :
    Sample.evaluated.legs[0]? = some (Sample.legModel .unpowered_unperturbed_leg) ∧
    ([[1]] : List (List ℚ))[0]? = some [1] ∧
    ([1] : List ℚ).length
      ≠ Sample.layout.leg (Sample.legModel .unpowered_unperturbed_leg).legType ∧
    (Sample.evaluated.evaluateTrajectory Sample.layout [0, 86400] [[1]] [[], []]).result
      = .error .ParameterDimensionError ∧
    (Sample.evaluated.evaluateTrajectory Sample.layout [0, 86400] [[1]]
      [[], []]).trajectory.getTotalDeltaV = Sample.evaluated.getTotalDeltaV ∧
    (Sample.evaluated.evaluateTrajectory Sample.layout [0, 86400] [[1]]
      [[], []]).trajectory.getTotalTimeOfFlight = Sample.evaluated.getTotalTimeOfFlight ∧
    (Sample.evaluated.evaluateTrajectory Sample.layout [0, 86400] [[1]]
      [[], []]).trajectory.getDeltaVPerNode = Sample.evaluated.getDeltaVPerNode ∧
    (Sample.evaluated.evaluateTrajectory Sample.layout [0, 86400] [[1]]
      [[], []]).trajectory.getDeltaVPerLeg = Sample.evaluated.getDeltaVPerLeg :=
  ⟨rfl, rfl, by decide, evaluate_wrong_leg_parameter_length Sample.layout Sample.evaluated
    [0, 86400] [[1]] [[], []] 0 (Sample.legModel .unpowered_unperturbed_leg) [1] rfl rfl
    (by decide)⟩

/-- The one call with the ill-dimensioned request fails. -/
theorem Sample.badRequest_fails :
    ∀ r ∈ (evaluateAll Sample.layout Sample.trajectory [Sample.badRequest]).1, r ≠ .ok () := by
  have hres : (evaluateAll Sample.layout Sample.trajectory [Sample.badRequest]).1
      = [.error .ParameterDimensionError] := rfl
  rw [hres]
  simp

/-- C5 at the sample trajectory after one failed call, for node and leg index
0 and five samples per leg. -/
theorem readers_raise_before_first_successful_evaluate_witness :
    createTransferTrajectory Sample.factory () Sample.legSettings Sample.nodeSettings
      ["Earth", "Mars"] "Sun" = .ok Sample.trajectory ∧
    (∀ r ∈ (evaluateAll Sample.layout Sample.trajectory [Sample.badRequest]).1,
      r ≠ .ok ()) ∧
    ((evaluateAll Sample.layout Sample.trajectory [Sample.badRequest]).2.getTotalDeltaV
      = .error .NotYetEvaluatedError ∧
    (evaluateAll Sample.layout Sample.trajectory [Sample.badRequest]).2.getTotalTimeOfFlight
      = .error .NotYetEvaluatedError ∧
    (evaluateAll Sample.layout Sample.trajectory [Sample.badRequest]).2.getDeltaVPerNode
      = .error .NotYetEvaluatedError ∧
    (evaluateAll Sample.layout Sample.trajectory [Sample.badRequest]).2.getDeltaVPerLeg
      = .error .NotYetEvaluatedError ∧
    (evaluateAll Sample.layout Sample.trajectory [Sample.badRequest]).2.getNodeDeltaV 0
      = .error .NotYetEvaluatedError ∧
    (evaluateAll Sample.layout Sample.trajectory [Sample.badRequest]).2.getLegDeltaV 0
      = .error .NotYetEvaluatedError ∧
    (evaluateAll Sample.layout Sample.trajectory [Sample.badRequest]).2.getStatesAlongTrajectory 5
      = .error .NotYetEvaluatedError) :=
  ⟨rfl, Sample.badRequest_fails,
    readers_raise_before_first_successful_evaluate Sample.factory () Sample.legSettings
      Sample.nodeSettings ["Earth", "Mars"] "Sun" Sample.trajectory Sample.layout
      [Sample.badRequest] 0 5 rfl Sample.badRequest_fails⟩

end SampleResults

/-! ## Results on the binding tables -/

section BindingResults

/-- C6: the `TransferTrajectory` binding exposes every reader the
specification names and `evaluate`; each exposed name is bound to the member
of the matching meaning (`delta_v` to `getTotalDeltaV`, ..., `evaluate` to
`evaluateTrajectory`), no two names share a member, and node and leg members
are not swapped. -/
theorem transferTrajectory_binding_table :
    specReaderNames.all (fun n => (ClassDef.lookup transferTrajectoryClass n).isSome) = true ∧
    ClassDef.lookup transferTrajectoryClass "delta_v" = some .getTotalDeltaV ∧
    ClassDef.lookup transferTrajectoryClass "time_of_flight" = some .getTotalTimeOfFlight ∧
    ClassDef.lookup transferTrajectoryClass "delta_v_per_node" = some .getDeltaVPerNode ∧
    ClassDef.lookup transferTrajectoryClass "delta_v_per_leg" = some .getDeltaVPerLeg ∧
    ClassDef.lookup transferTrajectoryClass "single_node_delta_v" = some .getNodeDeltaV ∧
    ClassDef.lookup transferTrajectoryClass "single_leg_delta_v" = some .getLegDeltaV ∧
    ClassDef.lookup transferTrajectoryClass "number_of_nodes" = some .getNumberOfNodes ∧
    ClassDef.lookup transferTrajectoryClass "number_of_legs" = some .getNumberOfLegs ∧
    ClassDef.lookup transferTrajectoryClass "states_along_trajectory"
      = some .getStatesAlongTrajectory ∧
    ClassDef.lookup transferTrajectoryClass "evaluate" = some .evaluateTrajectory ∧
    transferTrajectoryClass.length = 10 ∧
    (transferTrajectoryClass.map (fun d => d.pyName)).Nodup ∧
    (transferTrajectoryClass.map (fun d => d.member)).Nodup := by
  decide

/-- C7: the claim wants the two exposed names of
`LagrangeInterpolatorBoundaryHandling` bound to two distinct values, the
first to the cubic-spline correction.  In the binding both names are bound to
`lagrange_no_boundary_interpolation`, and no name is bound to
`lagrange_cubic_spline_boundary_interpolation`. -/
theorem lagrange_boundary_names_share_one_value :
    EnumValue.lookup lagrangeInterpolatorBoundaryHandlingEnum
        "lagrange_cubic_spline_boundary_interpolation"
      = some .lagrange_no_boundary_interpolation ∧
    EnumValue.lookup lagrangeInterpolatorBoundaryHandlingEnum
        "lagrange_no_boundary_interpolation"
      = some .lagrange_no_boundary_interpolation ∧
    lagrangeInterpolatorBoundaryHandlingEnum.all
      (fun v => v.enumerator != .lagrange_cubic_spline_boundary_interpolation) = true := by
  decide

/-- C8: the exposed `BoundaryInterpolationType` has exactly the seven names
of the claim, each bound to the enumerator of the same name, the seven bound
values are pairwise distinct, and they stand for raise, clamp, extrapolate
and default, the last three silent and with warning. -/
theorem boundaryInterpolationType_binding_table :
    boundaryInterpolationTypeEnum.map (fun v => v.pyName)
      = [ "throw_exception_at_boundary", "use_boundary_value",
          "use_boundary_value_with_warning", "extrapolate_at_boundary",
          "extrapolate_at_boundary_with_warning", "use_default_value",
          "use_default_value_with_warning" ] ∧
    boundaryInterpolationTypeEnum.map (fun v => v.enumerator.identifier)
      = boundaryInterpolationTypeEnum.map (fun v => v.pyName) ∧
    (boundaryInterpolationTypeEnum.map (fun v => v.enumerator)).Nodup ∧
    boundaryInterpolationTypeEnum.map (fun v => v.enumerator.policy)
      = [ .raise, .clamp false, .clamp true, .extrapolate false, .extrapolate true,
          .default false, .default true ] := by
  decide

/-- C9, as the claim states it, fails: the pair of default extrapolation
values handed to the underlying interpolator is the same constant function of
the caller's three arguments, here for scalar data; under `use_default_value`
a caller with data 5 and 7 gets the pair (0, 0). -/
theorem handedDefaultValues_fixed_by_wrapper :
    (handedDefaultValues (0 : ℚ) :
        List (ℚ × ℚ) → InterpolatorSettings → List ℚ → ℚ × ℚ)
      = (fun _ _ _ => (0, 0)) ∧
    handedDefaultValues (0 : ℚ) [((0 : ℚ), 5), (1, 7)]
        ⟨.linear, .huntingAlgorithm, .use_default_value⟩ [1, 1]
      = (0, 0) :=
  ⟨rfl, rfl⟩

/-- C9, amended: whatever the caller's arguments and the boundary policy, the
wrapper `createOneDimensionalInterpolatorBasic` calls the underlying factory
with the caller's data, settings and derivatives and with the pair (addition
identity, addition identity) as default extrapolation values. -/
theorem createOneDimensionalInterpolatorBasic_default_values {ι δ ρ : Type}
    (getAdditionIdentity : δ)
    (createOneDimensionalInterpolator :
      List (ι × δ) → InterpolatorSettings → δ × δ → List δ → ρ)
    (dataToInterpolate : List (ι × δ)) (interpolatorSettings : InterpolatorSettings)
    (firstDerivativesOfDataToIntepolate : List δ) :
    createOneDimensionalInterpolatorBasic getAdditionIdentity createOneDimensionalInterpolator
        dataToInterpolate interpolatorSettings firstDerivativesOfDataToIntepolate
      = createOneDimensionalInterpolator dataToInterpolate interpolatorSettings
          (getAdditionIdentity, getAdditionIdentity) firstDerivativesOfDataToIntepolate ∧
    handedDefaultValues getAdditionIdentity dataToInterpolate interpolatorSettings
        firstDerivativesOfDataToIntepolate
      = (getAdditionIdentity, getAdditionIdentity) :=
  ⟨rfl, rfl⟩

/-- C10: for scalar, vector and matrix dependent data,
`create_one_dimensional_interpolator` has an overload whose interpolator is
of the exposed class `OneDimensionalInterpolatorDouble`, `...Vector`,
`...Matrix`, and each class offers `interpolate` for one independent value
and for a sequence of independent values. -/
theorem create_one_dimensional_interpolator_offers :
    createOneDimensionalInterpolatorOffer .double
      = some ("OneDimensionalInterpolatorDouble", true, true) ∧
    createOneDimensionalInterpolatorOffer .VectorXd
      = some ("OneDimensionalInterpolatorVector", true, true) ∧
    createOneDimensionalInterpolatorOffer .MatrixXd
      = some ("OneDimensionalInterpolatorMatrix", true, true) := by
  decide

/-- C11: the five interpolator-settings factories have the same defaults
for omitted arguments: `lookup_scheme` is the hunting algorithm and
`boundary_interpolation` is `extrapolate_at_boundary_with_warning`; the only
argument without a default is `order` of `lagrange_interpolation`. -/
theorem settings_factories_share_defaults :
    settingsFactoryDefs.map (fun d => d.pyName)
      = [ "linear_interpolation", "cubic_spline_interpolation",
          "piecewise_constant_interpolation", "lagrange_interpolation",
          "hermiteinterpolation" ] ∧
    settingsFactoryDefs.map (fun d => d.valueWhenOmitted "lookup_scheme")
      = List.replicate 5 (some (.lookupScheme .huntingAlgorithm)) ∧
    settingsFactoryDefs.map (fun d => d.valueWhenOmitted "boundary_interpolation")
      = List.replicate 5
          (some (.boundaryInterpolation .extrapolate_at_boundary_with_warning)) ∧
    settingsFactoryDefs.map (fun d => (d.pyName, d.requiredArgs))
      = [ ("linear_interpolation", []), ("cubic_spline_interpolation", []),
          ("piecewise_constant_interpolation", []), ("lagrange_interpolation", ["order"]),
          ("hermiteinterpolation", []) ] := by
  decide

end BindingResults

end Tudatpy
